import Mathlib

/-!
Verification development for the voice-command orchestration component of the
PatientPathwayPrototype repository (PathwayControlComponent).

The component is embedded shallowly: the mutable component fields become a
record, every service call and upward event emission becomes an entry in an
explicit effect trace, and each asynchronous callback of the source becomes a
handler on a machine state.  Event delivery is modelled by a step function on
machine states; an event fires the handlers that are subscribed to it in the
current state, exactly as the rxjs subscriptions of the source do.
-/

namespace PathwayControl

/-- A synthesis voice as reported by the platform: URI, name and locale. -/
structure Voice where
  voiceURI : String
  name : String
  lang : String
deriving DecidableEq, Repr

/-- The object returned by the appointment-creator dialog.  The source treats
it structurally (duck typing): any of the fields date, header, content, data
may be absent (`none`) or hold a string (possibly empty, which is falsy in the
source language).  A cancelled dialog returns no object at all, modelled as
`Option.none` at the call site. -/
structure DialogObj where
  date : Option String
  header : Option String
  content : Option String
  data : Option String
deriving DecidableEq, Repr

/-- Truthiness of an optional string field: present and nonempty. -/
def truthyS : Option String → Bool
  | some s => !(s == "")
  | none => false

/-- Embedding of `isPathwayEvent` (source lines 426-433): the object is a
pathway event when the fields date, header and content are all truthy. -/
def isPathwayEvent (o : DialogObj) : Bool :=
  truthyS o.date && truthyS o.header && truthyS o.content

/-! ### The classifier

The source dispatches on the lower-cased transcript with a
switch-over-pattern idiom (lines 226-302): for each case, the label is
`recognitionResult.match(regex)?.input`, which equals the whole transcript
exactly when the regex matches somewhere in it, so the first regex in source
order that matches anywhere in the transcript selects the case. -/

/-- The whitespace characters matched by the regex class used in the source
patterns (the ASCII part, which covers all inputs considered here). -/
def jsWsChars : List Char := [' ', '\t', '\n', '\r', '\x0c', '\x0b']

/-- Does `pat` occur at the head of `l`? -/
def segStartsAt : List Char → List Char → Bool
  | [], _ => true
  | _ :: _, [] => false
  | p :: ps, c :: cs => p == c && segStartsAt ps cs

/-- Does `pat` occur contiguously anywhere inside `l`? -/
def hasSeg (pat : List Char) : List Char → Bool
  | [] => pat.isEmpty
  | c :: cs => segStartsAt pat (c :: cs) || hasSeg pat (cs)

/-- String-level containment: `pat` occurs as a contiguous substring of `s`. -/
def strContains (s pat : String) : Bool := hasSeg pat.toList s.toList

/-- The regex of the first case, lines 228: word "neuer", one whitespace
character, word "termin", anywhere in the transcript. -/
def matchNeuerTermin (l : List Char) : Bool :=
  jsWsChars.any (fun c => hasSeg ("neuer".toList ++ c :: "termin".toList) l)

/-- The regex of the second case, line 236: "auf" ws "ein" ws "wiederhören". -/
def matchGoodbye (l : List Char) : Bool :=
  jsWsChars.any (fun c1 =>
    jsWsChars.any (fun c2 =>
      hasSeg ("auf".toList ++ c1 :: ("ein".toList ++ c2 :: "wiederhören".toList)) l))

/-- The regex of the third case, line 245: "hilfe" anywhere. -/
def matchHilfe (l : List Char) : Bool := hasSeg "hilfe".toList l

/-- The regex of the fourth case, line 252: "lösche" anywhere. -/
def matchLoesche (l : List Char) : Bool := hasSeg "lösche".toList l

/-- The regex of the fifth case, line 277: "zeige" anywhere. -/
def matchZeige (l : List Char) : Bool := hasSeg "zeige".toList l

/-- Lower-casing as applied by the source (line 223) to the transcript:
ASCII letters and the German umlauts that occur in the command grammar. -/
def jsToLowerChar (c : Char) : Char :=
  if 'A' ≤ c ∧ c ≤ 'Z' then Char.ofNat (c.toNat + 32)
  else if c = 'Ä' then 'ä'
  else if c = 'Ö' then 'ö'
  else if c = 'Ü' then 'ü'
  else c

/-- Lower-casing of a whole transcript. -/
def jsToLower (s : String) : String := String.mk (s.toList.map jsToLowerChar)

/-- Index of the first space character, as `indexOf(" ")` of the source
(line 255): the position, or -1 when there is no space.  Note that only the
plain space character is searched for, not the whole whitespace class. -/
def firstSpaceIdx : List Char → Option Nat
  | [] => none
  | c :: cs => if c = ' ' then some 0 else (firstSpaceIdx cs).map (· + 1)

/-- `indexOf(" ")` with the -1 convention of the source. -/
def jsIndexOfSpace (l : List Char) : Int :=
  match firstSpaceIdx l with
  | some n => (n : Int)
  | none => -1

/-- `substr(start)` of the source language: a negative start counts from the
end of the string (clamped at 0), so `substr(-1)` is the last character. -/
def jsSubstrFrom (l : List Char) (start : Int) : List Char :=
  if start < 0 then l.drop (((l.length : Int) + start).toNat) else l.drop start.toNat

/-- `trim()` of the source language, restricted to the whitespace characters
of `jsWsChars`. -/
def jsTrim (l : List Char) : List Char :=
  ((l.dropWhile (fun c => c ∈ jsWsChars)).reverse.dropWhile (fun c => c ∈ jsWsChars)).reverse

/-- Embedding of the target extraction of the delete and show cases
(lines 255 and 280): `transcript.substr(transcript.indexOf(" ")).trim()`. -/
def extractTarget (r : String) : String :=
  String.mk (jsTrim (jsSubstrFrom r.toList (jsIndexOfSpace r.toList)))

/-- The command derived from a (already lower-cased) transcript. -/
inductive Command where
  | createAppointment
  | endSession
  | helpCmd
  | deleteCmd (target : String)
  | showCmd (target : String)
  | unrecognized
deriving DecidableEq, Repr

/-- Embedding of the switch dispatch of lines 226-302: the first pattern, in
source order, that matches anywhere in the lower-cased transcript selects the
command; the delete and show cases carry the extracted target (the source
checks its truthiness only later, inside the handler). -/
def classify (r : String) : Command :=
  let l := r.toList
  if matchNeuerTermin l then .createAppointment
  else if matchGoodbye l then .endSession
  else if matchHilfe l then .helpCmd
  else if matchLoesche l then .deleteCmd (extractTarget r)
  else if matchZeige l then .showCmd (extractTarget r)
  else .unrecognized

/-! ### The orchestrator state machine

The mutable component fields, the subscriptions held in
`currentSpeechRecognitionServiceSubscriptions`, and the one-shot synthesis
subscriptions created locally inside handlers are all represented
explicitly.  A call to `setupSpeechRecognitionBehaviour` installs one
handler set for the recognition events, tagged with a fresh generation
number and pushed onto the registry list; `unsubscribeFromAllSubscriptions`
empties that list.  The one-shot synthesis handlers are local variables of
the handlers in the source and are never stored in the registry, so they
are tracked by two separate counters. -/

/-- The component state: the fields of the source class together with the
subscription bookkeeping. -/
structure CState where
  speechRecognitionAvailable : Bool
  pathIsListening : Bool
  availableVoices : List Voice
  /-- Generation tags of the recognition handler sets currently subscribed
  (the registry array of line 61); each entry is one call of
  `setupSpeechRecognitionBehaviour`. -/
  recSubs : List Nat
  nextGen : Nat
  /-- Active one-shot subscriptions to the synthesis speech-start event that
  stop recognition when it fires (created at line 94). -/
  pendingSpeechStartStops : Nat
  /-- Active one-shot subscriptions to the synthesis speech-end event that
  restart the session when it fires (created at lines 266 and 375). -/
  pendingSpeechEndRestarts : Nat
  creatorDialogOpen : Bool
  helpDialogOpen : Bool
  /-- True once `ngOnInit` has subscribed the deletion-result and voice-list
  handlers (lines 90 and 110). -/
  globalHandlersOn : Bool
deriving DecidableEq, Repr

/-- One observable action of the component: a call into one of the channels,
a user notice, or an upward event emission. -/
inductive Eff where
  | initRec
  | startRec
  | stopRec
  | speak (m : Option String)
  | display (m : Option String)
  | emitCreated (o : DialogObj)
  | emitDelete (name : String)
  | emitOpen (name : String)
  | openCreatorDialog
  | openHelpDialog
deriving DecidableEq, Repr

/-- A traced effect, annotated with the value of `pathIsListening` and the
number of synthesis utterances in progress at the moment of the call. -/
structure TEff where
  listening : Bool
  speaking : Nat
  eff : Eff
deriving DecidableEq, Repr

/-- Machine state: the component state plus the number of synthesis
utterances in progress (incremented by a speak call, decremented when the
channel reports speech-end). -/
structure MS where
  comp : CState
  speaking : Nat
deriving DecidableEq, Repr

/-- Perform one observable call: it is appended to the trace with the
current listening/speaking annotation; a speak call starts an utterance. -/
def emitE (s : MS) (e : Eff) : MS × List TEff :=
  (⟨s.comp, match e with | .speak _ => s.speaking + 1 | _ => s.speaking⟩,
   [⟨s.comp.pathIsListening, s.speaking, e⟩])

/-- Sequencing of two traced computations. -/
def seqE (p : MS × List TEff) (f : MS → MS × List TEff) : MS × List TEff :=
  ((f p.1).1, p.2 ++ (f p.1).2)

/-- A pure state update produces no trace. -/
def pureE (s : MS) : MS × List TEff := (s, [])

/-- Run a traced computation `n` times in sequence. -/
def applyNE : Nat → (MS → MS × List TEff) → MS → MS × List TEff
  | 0, _, s => (s, [])
  | n + 1, f, s => seqE (f s) (applyNE n f)

/-- Literal notice of line 79. -/
def browserNotice : String :=
  "Die Spracherkennung wird in diesem Browser nicht unterstützt. Bitte nutzen Sie Google Chrome."

/-- Literal notice of line 238. -/
def farewellNotice : String := "Man hört sich."

/-- Literal notice of line 295. -/
def unsupportedNotice : String := "Dieses Sprachkommando wird nicht unterstützt."

/-- Literal utterance of line 386. -/
def successUtterance : String := "Sie haben erfolgreich einen neuen Termin angelegt."

/-- Literal utterance of line 102. -/
def deletedOkUtterance : String := "Der Termin wurde erfolgreich gelöscht!"

/-- Literal utterance of line 104. -/
def deletedMissingUtterance : String := "Es gibt keinen Termin mit diesem Namen!"

/-- Embedding of `unsubscribeFromAllSubscriptions` (lines 340-350): every
subscription in the registry array is unsubscribed and the array emptied. -/
def unsubscribeAll (s : MS) : MS :=
  ⟨{ s.comp with recSubs := [] }, s.speaking⟩

/-- Embedding of `setupSpeechRecognitionBehaviour` (lines 211-335): pushes a
fresh recognition handler set (four subscriptions of one generation) onto
the registry array. -/
def setupBehaviour (s : MS) : MS :=
  ⟨{ s.comp with recSubs := s.comp.recSubs ++ [s.comp.nextGen],
                 nextGen := s.comp.nextGen + 1 }, s.speaking⟩

/-- Embedding of `restartSpeechRecognition` (lines 407-417): unsubscribe the
registry, stop, re-init, reinstall one handler set, start.  The return value
of `initRecognition` is ignored by the source here. -/
def restartMS (s : MS) : MS × List TEff :=
  seqE (seqE (seqE (emitE (unsubscribeAll s) .stopRec)
    (fun s1 => emitE s1 .initRec))
    (fun s2 => pureE (setupBehaviour s2)))
    (fun s3 => emitE s3 .startRec)

/-- Embedding of `displayMessage` (lines 193-204): one snackbar notice. -/
def displayMessageMS (m : Option String) (s : MS) : MS × List TEff :=
  emitE s (.display m)

/-- Embedding of `openHelpDialog` (lines 149-165): the help dialog is opened
and its close handler subscribed. -/
def openHelpDialogMS (s : MS) : MS × List TEff :=
  seqE (emitE s .openHelpDialog)
    (fun s1 => pureE ⟨{ s1.comp with helpDialogOpen := true }, s1.speaking⟩)

/-- Embedding of `openAndHandlePathwayAppointmentCreatorDialog`
(lines 355-402, up to the dialog opening): stop recognition, clear the
listening flag, tear down the registry, open the dialog and subscribe its
close handler. -/
def openCreatorDialogMS (s : MS) : MS × List TEff :=
  seqE (seqE (emitE s .stopRec)
    (fun s1 => pureE (unsubscribeAll ⟨{ s1.comp with pathIsListening := false }, s1.speaking⟩)))
    (fun s2 => seqE (emitE s2 .openCreatorDialog)
      (fun s3 => pureE ⟨{ s3.comp with creatorDialogOpen := true }, s3.speaking⟩))

/-- Embedding of the recognition-result handler (lines 214-304): stop
recognition, lower-case the transcript, dispatch on the first matching
pattern. -/
def onRecognitionResult (t : String) (s : MS) : MS × List TEff :=
  seqE (emitE s .stopRec) (fun s1 =>
    match classify (jsToLower t) with
    | .createAppointment => openCreatorDialogMS s1
    | .endSession =>
        seqE (displayMessageMS (some farewellNotice) s1) (fun s2 => emitE s2 .stopRec)
    | .helpCmd => openHelpDialogMS s1
    | .deleteCmd name =>
        seqE (seqE (if name = "" then pureE s1 else emitE s1 (.emitDelete name))
          restartMS)
          (fun s3 => pureE ⟨{ s3.comp with
            pendingSpeechEndRestarts := s3.comp.pendingSpeechEndRestarts + 1 }, s3.speaking⟩)
    | .showCmd name =>
        seqE (if name = "" then pureE s1 else emitE s1 (.emitOpen name)) restartMS
    | .unrecognized =>
        seqE (displayMessageMS (some unsupportedNotice) s1) restartMS)

/-- The external events the component reacts to, including the two user
interactions with the microphone button. -/
inductive Ev where
  | recResult (t : String)
  | recStarted
  | recEnded
  | recError (msg : String)
  | speechStart
  | speechEnd
  | voiceList (vs : List Voice)
  | pathwayDeleted (success : Bool)
  | creatorClosed (r : Option DialogObj)
  | helpClosed
  | activateVoiceControl
  | deactivateVoiceControl
deriving DecidableEq, Repr

/-- Event delivery: each event runs the handlers currently subscribed to it.
Recognition events run one handler per registered generation; the one-shot
synthesis handlers each run once and unsubscribe themselves. -/
def stepRun (s : MS) (ev : Ev) : MS × List TEff :=
  match ev with
  | .recResult t => applyNE s.comp.recSubs.length (onRecognitionResult t) s
  | .recStarted =>
      applyNE s.comp.recSubs.length
        (fun s1 => pureE ⟨{ s1.comp with pathIsListening := true }, s1.speaking⟩) s
  | .recEnded =>
      applyNE s.comp.recSubs.length
        (fun s1 => pureE ⟨{ s1.comp with pathIsListening := false }, s1.speaking⟩) s
  | .recError _ => applyNE s.comp.recSubs.length restartMS s
  | .speechStart =>
      applyNE s.comp.pendingSpeechStartStops (fun s1 => emitE s1 .stopRec)
        ⟨{ s.comp with pendingSpeechStartStops := 0 }, s.speaking⟩
  | .speechEnd =>
      applyNE s.comp.pendingSpeechEndRestarts restartMS
        ⟨{ s.comp with pendingSpeechEndRestarts := 0 }, s.speaking - 1⟩
  | .voiceList vs =>
      if s.comp.globalHandlersOn then
        pureE ⟨{ s.comp with availableVoices := vs.filter (fun v => v.lang == "de-DE") },
          s.speaking⟩
      else pureE s
  | .pathwayDeleted success =>
      if s.comp.globalHandlersOn then
        emitE ⟨{ s.comp with
            pendingSpeechStartStops := s.comp.pendingSpeechStartStops + 1 }, s.speaking⟩
          (.speak (some (if success then deletedOkUtterance else deletedMissingUtterance)))
      else pureE s
  | .creatorClosed r =>
      if s.comp.creatorDialogOpen then
        let s1 : MS := ⟨{ s.comp with creatorDialogOpen := false }, s.speaking⟩
        match r with
        | some o =>
            let s2 : MS := ⟨{ s1.comp with
              pendingSpeechEndRestarts := s1.comp.pendingSpeechEndRestarts + 1 }, s1.speaking⟩
            if isPathwayEvent o then
              seqE (emitE s2 (.emitCreated o))
                (fun s3 => emitE s3 (.speak (some successUtterance)))
            else
              seqE (emitE s2 (.display o.data)) (fun s3 => emitE s3 (.speak o.data))
        | none => restartMS s1
      else pureE s
  | .helpClosed =>
      if s.comp.helpDialogOpen then
        restartMS ⟨{ s.comp with helpDialogOpen := false }, s.speaking⟩
      else pureE s
  | .activateVoiceControl => restartMS s
  | .deactivateVoiceControl => emitE s .stopRec

/-- Run a list of events in order, concatenating the traces. -/
def runMS (s : MS) : List Ev → MS × List TEff
  | [] => (s, [])
  | ev :: evs => seqE (stepRun s ev) (fun s1 => runMS s1 evs)

/-- The component state before `ngOnInit`. -/
def freshC : CState :=
  { speechRecognitionAvailable := false
    pathIsListening := false
    availableVoices := []
    recSubs := []
    nextGen := 0
    pendingSpeechStartStops := 0
    pendingSpeechEndRestarts := 0
    creatorDialogOpen := false
    helpDialogOpen := false
    globalHandlersOn := false }

/-- Embedding of `ngOnInit` (lines 70-126): query availability; when
unavailable display the browser notice, otherwise install the recognition
handler set and start recognition; in both cases subscribe the
deletion-result and voice-list handlers. -/
def initComponent (available : Bool) : MS × List TEff :=
  seqE (seqE (emitE ⟨freshC, 0⟩ .initRec)
    (fun s1 => pureE ⟨{ s1.comp with speechRecognitionAvailable := available }, s1.speaking⟩))
    (fun s2 =>
      seqE (if available then seqE (pureE (setupBehaviour s2)) (fun s3 => emitE s3 .startRec)
            else displayMessageMS (some browserNotice) s2)
        (fun s4 => pureE ⟨{ s4.comp with globalHandlersOn := true }, s4.speaking⟩))

/-- A whole scenario: initialization followed by an event sequence. -/
def scenarioRun (available : Bool) (evs : List Ev) : MS × List TEff :=
  seqE (initComponent available) (fun s => runMS s evs)

/-- Is the effect a speak call? -/
def isSpeakEff : Eff → Bool
  | .speak _ => true
  | _ => false

/-- The mutual-exclusion condition on one traced effect: a speak call must
not happen while listening, and a recognition start must not happen while a
synthesis utterance is in progress. -/
def mutexOkItem (t : TEff) : Bool :=
  (!(isSpeakEff t.eff) || !t.listening) && (!(t.eff == Eff.startRec) || t.speaking == 0)

/-- The mutual-exclusion condition over a whole trace. -/
def mutexTrace (tr : List TEff) : Bool := tr.all mutexOkItem

/-- The extraction rule as the specification words it: everything after the
first whitespace character of the transcript, trimmed; empty when the
transcript has no whitespace.  This definition follows the words of the
specification and is compared against `extractTarget`, the embedding of the
source. -/
def specTarget (t : String) : String :=
  match t.toList.findIdx? (fun c => c ∈ jsWsChars) with
  | some n => String.mk (jsTrim (t.toList.drop (n + 1)))
  | none => ""

/-- A sample well-formed appointment object returned by the creator dialog. -/
def sampleEvent : DialogObj :=
  { date := some "12.03.2022", header := some "Zahnarzt", content := some "Kontrolle",
    data := none }

/-- The canonical deletion scenario: listening, the user says the delete
command, recognition restarts and starts again, then the pathway service
reports the deletion result, synthesis starts and ends. -/
def delScenario : List Ev :=
  [.recStarted, .recResult "lösche zahnarzttermin", .recStarted,
   .pathwayDeleted true, .speechStart, .speechEnd]

/-- The deletion scenario up to the point where the confirmation utterance
is requested. -/
def delScenarioStart : List Ev :=
  [.recStarted, .recResult "lösche zahnarzttermin", .recStarted,
   .pathwayDeleted true]

/-- The canonical appointment-creation scenario: listening, the user says
the create command, the dialog closes with a well-formed appointment, then
synthesis of the success utterance ends. -/
def creationScenario : List Ev :=
  [.recStarted, .recResult "neuer termin",
   .creatorClosed (some sampleEvent), .speechEnd]

/-- The component state right after a successful initialization and the
recognition-started event: one recognition handler set, listening. -/
def canonListening : MS := (scenarioRun true [.recStarted]).1

/-- The component state right after the create-appointment command: the
creator dialog is open, the registry is empty, not listening. -/
def canonCreatorOpen : MS :=
  (scenarioRun true [.recStarted, .recResult "neuer termin"]).1

/-! ## Theorems -/

/-- C3: the classifier tests its pattern rules in the fixed source order and
the first rule whose pattern matches anywhere in the lower-cased transcript
wins; in particular every transcript containing both the "hilfe" and the
"neuer termin" substrings classifies as the create-appointment command. -/
theorem C3_rule_order (t : String)
    (h1 : strContains t "hilfe" = true)
    (h2 : strContains t "neuer termin" = true) :
    classify t = Command.createAppointment := by
  have key : "neuer".toList ++ ' ' :: "termin".toList = "neuer termin".toList := by decide
  have hm : matchNeuerTermin t.toList = true := by
    unfold matchNeuerTermin
    simp only [jsWsChars, List.any_cons, List.any_nil, Bool.or_eq_true]
    exact Or.inl (by rw [key]; exact h2)
  have hm2 : matchNeuerTermin t.data = true := hm
  simp [classify, hm2]

/-- Witness for C3 at a concrete transcript containing both substrings. -/
theorem C3_rule_order_witness :
    strContains "hilfe neuer termin" "hilfe" = true ∧
    strContains "hilfe neuer termin" "neuer termin" = true ∧
    classify "hilfe neuer termin" = Command.createAppointment :=
  ⟨by decide, by decide, C3_rule_order "hilfe neuer termin" (by decide) (by decide)⟩

/-- C6: restarting twice in succession leaves exactly one active recognition
handler set, and a subsequent recognition-result event is processed by
exactly one handler (the step is one application of the result handler, not
several). -/
theorem C6_restart_idempotent (s : MS) (t : String) :
    (restartMS (restartMS s).1).1.comp.recSubs.length = 1 ∧
    stepRun (restartMS (restartMS s).1).1 (.recResult t) =
      onRecognitionResult t (restartMS (restartMS s).1).1 := by
  have hlen : (restartMS (restartMS s).1).1.comp.recSubs = [s.comp.nextGen + 1] := by
    simp [restartMS, seqE, emitE, pureE, unsubscribeAll, setupBehaviour]
  refine ⟨by simp [hlen], ?_⟩
  simp [stepRun, hlen, applyNE, seqE]

/-- C9: a voice-list event replaces `availableVoices` wholesale with exactly
the incoming entries of locale "de-DE", in their original order, and no
entry of another locale is kept. -/
theorem C9_voice_filter (s : MS) (vs : List Voice)
    (hinit : s.comp.globalHandlersOn = true) :
    (stepRun s (.voiceList vs)).1.comp.availableVoices =
      vs.filter (fun v => v.lang == "de-DE") ∧
    ∀ v ∈ (stepRun s (.voiceList vs)).1.comp.availableVoices, v.lang = "de-DE" := by
  constructor
  · simp [stepRun, hinit, pureE]
  · intro v hv
    simp only [stepRun, hinit, if_true, pureE, List.mem_filter] at hv
    simpa using hv.2

/-- Witness for C9 at a concrete mixed voice list. -/
theorem C9_voice_filter_witness :
    canonListening.comp.globalHandlersOn = true ∧
    (stepRun canonListening
        (.voiceList [⟨"u1", "Anna", "de-DE"⟩, ⟨"u2", "Brian", "en-US"⟩,
          ⟨"u3", "Carl", "de-DE"⟩])).1.comp.availableVoices =
      [⟨"u1", "Anna", "de-DE"⟩, ⟨"u3", "Carl", "de-DE"⟩] := by
  refine ⟨by decide, ?_⟩
  have h := C9_voice_filter canonListening
    [⟨"u1", "Anna", "de-DE"⟩, ⟨"u2", "Brian", "en-US"⟩, ⟨"u3", "Carl", "de-DE"⟩]
    (by decide)
  rw [h.1]
  decide

/-- C10: the creator-dialog close handler discriminates a non-empty result
purely by field truthiness: it is treated as a created appointment exactly
when date, header and content are all truthy, and any other non-empty
result is treated as an error message whose data field is displayed and
spoken. -/
theorem C10_dialog_discrimination (s : MS) (o : DialogObj)
    (hopen : s.comp.creatorDialogOpen = true) :
    isPathwayEvent o = (truthyS o.date && truthyS o.header && truthyS o.content) ∧
    (isPathwayEvent o = true →
      (stepRun s (.creatorClosed (some o))).2.map TEff.eff =
        [.emitCreated o, .speak (some successUtterance)]) ∧
    (isPathwayEvent o = false →
      (stepRun s (.creatorClosed (some o))).2.map TEff.eff =
        [.display o.data, .speak o.data]) := by
  refine ⟨rfl, ?_, ?_⟩
  · intro hv
    simp [stepRun, hopen, hv, seqE, emitE]
  · intro hv
    simp [stepRun, hopen, hv, seqE, emitE]

/-- Witness for C10: an appointment-shaped object with an empty header is
treated as an error message, and a well-formed one as a created event. -/
theorem C10_dialog_discrimination_witness :
    canonCreatorOpen.comp.creatorDialogOpen = true ∧
    (stepRun canonCreatorOpen
        (.creatorClosed (some ⟨some "12.03.2022", some "", some "Kontrolle", none⟩))).2.map
        TEff.eff = [.display none, .speak none] := by
  refine ⟨by decide, ?_⟩
  have h := C10_dialog_discrimination canonCreatorOpen
    ⟨some "12.03.2022", some "", some "Kontrolle", none⟩ (by decide)
  exact h.2.2 (by decide)

/-- C1 counterexample: in the canonical deletion scenario the confirmation
utterance is requested by `speakUtterance` while `pathIsListening` is still
true (recognition was restarted immediately after the delete command and is
stopped only once synthesis reports speech-start), so the mutual-exclusion
property fails on a producible event sequence. -/
theorem C1_mutex_counterexample :
    mutexTrace (scenarioRun true delScenario).2 = false := by decide

/-- C1 amended: mutual exclusion holds on the appointment-creation path
(the whole canonical creation trace satisfies it: the utterance is spoken
while not listening and recognition restarts only after speech-end), but on
the deletion-confirmation path the utterance is spoken exactly once while
listening is true, recognition is stopped only by the speech-start one-shot
handler, and the session restarts again after speech-end. -/
theorem C1_mutex_amended :
    mutexTrace (scenarioRun true creationScenario).2 = true ∧
    ((scenarioRun true delScenarioStart).2.filter
        (fun x => isSpeakEff x.eff)).map TEff.listening = [true] ∧
    (stepRun (scenarioRun true delScenarioStart).1 .speechStart).2.map TEff.eff =
      [.stopRec] ∧
    (stepRun (stepRun (scenarioRun true delScenarioStart).1 .speechStart).1
        .speechEnd).2.map TEff.eff = [.stopRec, .initRec, .startRec] := by
  exact ⟨by decide, by decide, by decide, by decide⟩

/-- C2 counterexample: after a delete command the handler registers a
one-shot speech-end restart subscription; a restart of the session (here by
the microphone button, the same `restartSpeechRecognition` primitive) does
not cancel it, and when speech-end later fires the supposedly stale handler
still performs a full restart instead of being a no-op. -/
theorem C2_cancellation_counterexample :
    (scenarioRun true [.recStarted, .recResult "lösche zahnarzttermin",
        .activateVoiceControl]).1.comp.pendingSpeechEndRestarts = 1 ∧
    (stepRun (scenarioRun true [.recStarted, .recResult "lösche zahnarzttermin",
        .activateVoiceControl]).1 .speechEnd).2.map TEff.eff =
      [.stopRec, .initRec, .startRec] := by
  exact ⟨by decide, by decide⟩

/-- C2 amended: a restart cancels exactly the recognition-event handler sets
held in the subscription registry, replacing them by one fresh set; the
pending one-shot synthesis handlers are not held in the registry and survive
a restart unchanged, and such a surviving speech-end handler still performs
a full restart when it fires; the end-session command cancels no
subscriptions at all. -/
theorem C2_cancellation_amended (s : MS) (g : Nat) :
    (restartMS s).1.comp.recSubs = [s.comp.nextGen] ∧
    (restartMS s).1.comp.pendingSpeechEndRestarts =
      s.comp.pendingSpeechEndRestarts ∧
    (restartMS s).1.comp.pendingSpeechStartStops =
      s.comp.pendingSpeechStartStops ∧
    (s.comp.pendingSpeechEndRestarts = 1 →
      (stepRun s .speechEnd).2.map TEff.eff = [.stopRec, .initRec, .startRec]) ∧
    (s.comp.recSubs = [g] →
      (stepRun s (.recResult "auf ein wiederhören")).1.comp.recSubs = [g] ∧
      (stepRun s (.recResult "auf ein wiederhören")).2.map TEff.eff =
        [.stopRec, .display (some farewellNotice), .stopRec]) := by
  refine ⟨?_, ?_, ?_, ?_, ?_⟩
  · simp [restartMS, seqE, emitE, pureE, unsubscribeAll, setupBehaviour]
  · simp [restartMS, seqE, emitE, pureE, unsubscribeAll, setupBehaviour]
  · simp [restartMS, seqE, emitE, pureE, unsubscribeAll, setupBehaviour]
  · intro hp
    simp [stepRun, hp, applyNE, seqE, restartMS, emitE, pureE, unsubscribeAll,
      setupBehaviour]
  · intro hs
    have hc : classify (jsToLower "auf ein wiederhören") = Command.endSession := by
      decide
    constructor
    · simp [stepRun, hs, applyNE, seqE, onRecognitionResult, hc, emitE, pureE,
        displayMessageMS]
    · simp [stepRun, hs, applyNE, seqE, onRecognitionResult, hc, emitE, pureE,
        displayMessageMS]

/-- Witness for C2 amended at the reachable state of the counterexample
scenario just before the microphone restart. -/
theorem C2_cancellation_amended_witness :
    ((restartMS (scenarioRun true [.recStarted, .recResult "lösche zahnarzttermin"]).1).1.comp.pendingSpeechEndRestarts = 1) ∧
    (stepRun (scenarioRun true [.recStarted, .recResult "lösche zahnarzttermin"]).1
        .speechEnd).2.map TEff.eff = [.stopRec, .initRec, .startRec] := by
  have h := C2_cancellation_amended
    (scenarioRun true [.recStarted, .recResult "lösche zahnarzttermin"]).1 1
  refine ⟨?_, h.2.2.2.1 (by decide)⟩
  rw [h.2.1]
  decide

/-- C4 counterexample: for the transcript "lösche", which matches the delete
pattern but contains no whitespace, the specification extraction yields the
empty string (so the claim demands unrecognized treatment with no upward
emission), yet the source computes `substr(-1)` and emits the deletion
request for the single letter "e"; moreover for "lösche " (empty target) the
handler silently restarts without the unsupported-command notice that the
unrecognized treatment displays. -/
theorem C4_target_counterexample :
    specTarget "lösche" = "" ∧
    classify "lösche" = Command.deleteCmd "e" ∧
    (stepRun canonListening (.recResult "lösche")).2.map TEff.eff =
      [.stopRec, .emitDelete "e", .stopRec, .initRec, .startRec] ∧
    (stepRun canonListening (.recResult "lösche ")).2.map TEff.eff =
      [.stopRec, .stopRec, .initRec, .startRec] ∧
    (stepRun canonListening (.recResult "blabla")).2.map TEff.eff =
      [.stopRec, .display (some unsupportedNotice), .stopRec, .initRec, .startRec] := by
  exact ⟨by decide, by decide, by decide, by decide, by decide⟩

/-- C4 amended: for a transcript matching the delete pattern the extracted
target is `substr(indexOf(" "))` trimmed — everything from the first space
character on when a space exists, and the last character of the transcript
when none does; a nonempty target is emitted upward, an empty one is
silently dropped (no upward emission and no unsupported-command notice),
and in both cases recognition restarts immediately.  On the two example
transcripts: "lösche zahnarzttermin" yields the target "zahnarzttermin" and
"lösche " yields the empty target. -/
theorem C4_target_amended (s : MS) (g : Nat) (t nm : String)
    (hs : s.comp.recSubs = [g])
    (hc : classify (jsToLower t) = Command.deleteCmd nm) :
    (stepRun s (.recResult t)).2.map TEff.eff =
      [Eff.stopRec] ++ (if nm = "" then [] else [Eff.emitDelete nm]) ++
        [Eff.stopRec, Eff.initRec, Eff.startRec] ∧
    extractTarget "lösche zahnarzttermin" = "zahnarzttermin" ∧
    extractTarget "lösche " = "" := by
  refine ⟨?_, by decide, by decide⟩
  by_cases hnm : nm = ""
  · simp [stepRun, hs, applyNE, seqE, onRecognitionResult, hc, hnm, emitE, pureE,
      restartMS, unsubscribeAll, setupBehaviour]
  · simp [stepRun, hs, applyNE, seqE, onRecognitionResult, hc, hnm, emitE, pureE,
      restartMS, unsubscribeAll, setupBehaviour]

/-- Witness for C4 amended at the canonical listening state and the example
delete transcript. -/
theorem C4_target_amended_witness :
    canonListening.comp.recSubs = [0] ∧
    (stepRun canonListening (.recResult "lösche zahnarzttermin")).2.map TEff.eff =
      [Eff.stopRec] ++ [Eff.emitDelete "zahnarzttermin"] ++
        [Eff.stopRec, Eff.initRec, Eff.startRec] := by
  have h := C4_target_amended canonListening 0 "lösche zahnarzttermin" "zahnarzttermin"
    (by decide) (by decide)
  refine ⟨by decide, ?_⟩
  have h1 := h.1
  simpa using h1

/-- C8: on a recognition-result event whose transcript is the delete command
for "zahnarzttermin", the upward deletion request is emitted exactly once
and recognition is restarted in the same handler, without waiting for any
synthesis event. -/
theorem C8_delete_dispatch (s : MS) (g : Nat) (hs : s.comp.recSubs = [g]) :
    (stepRun s (.recResult "lösche zahnarzttermin")).2.map TEff.eff =
      [.stopRec, .emitDelete "zahnarzttermin", .stopRec, .initRec, .startRec] ∧
    ((stepRun s (.recResult "lösche zahnarzttermin")).2.map TEff.eff).count
      (.emitDelete "zahnarzttermin") = 1 := by
  have hc : classify (jsToLower "lösche zahnarzttermin") =
      Command.deleteCmd "zahnarzttermin" := by decide
  have he : (stepRun s (.recResult "lösche zahnarzttermin")).2.map TEff.eff =
      [.stopRec, .emitDelete "zahnarzttermin", .stopRec, .initRec, .startRec] := by
    simp [stepRun, hs, applyNE, seqE, onRecognitionResult, hc, emitE, pureE,
      restartMS, unsubscribeAll, setupBehaviour]
  refine ⟨he, ?_⟩
  rw [he]
  decide

/-- Witness for C8 at the canonical listening state. -/
theorem C8_delete_dispatch_witness :
    canonListening.comp.recSubs = [0] ∧
    (stepRun canonListening (.recResult "lösche zahnarzttermin")).2.map TEff.eff =
      [.stopRec, .emitDelete "zahnarzttermin", .stopRec, .initRec, .startRec] :=
  ⟨by decide, (C8_delete_dispatch canonListening 0 (by decide)).1⟩

/-- A component state in which no recognition handler set is subscribed and
no dialog is open: from such states only a speech-end one-shot or the
microphone button can lead to a recognition start. -/
def QuietC (c : CState) : Prop :=
  c.recSubs = [] ∧ c.helpDialogOpen = false ∧ c.creatorDialogOpen = false

/-- As `QuietC`, and additionally no speech-end one-shot restart handler is
pending, so not even a speech-end event can start recognition. -/
def Quiet0C (c : CState) : Prop :=
  c.recSubs = [] ∧ c.helpDialogOpen = false ∧ c.creatorDialogOpen = false ∧
  c.pendingSpeechEndRestarts = 0

theorem applyNE_stop (k : Nat) (s : MS) :
    (applyNE k (fun s1 => emitE s1 .stopRec) s).1.comp = s.comp ∧
    (applyNE k (fun s1 => emitE s1 .stopRec) s).2.map TEff.eff =
      List.replicate k .stopRec := by
  induction k generalizing s with
  | zero => simp [applyNE]
  | succ n ih =>
      refine ⟨(ih (emitE s Eff.stopRec).1).1, ?_⟩
      have h2 := (ih (emitE s Eff.stopRec).1).2
      show ((emitE s Eff.stopRec).2 ++
        (applyNE n (fun s1 => emitE s1 Eff.stopRec) (emitE s Eff.stopRec).1).2).map
          TEff.eff = List.replicate (n + 1) Eff.stopRec
      rw [List.map_append, h2]
      rfl

theorem quiet_step_noStart (s : MS) (ev : Ev) (hq : QuietC s.comp)
    (h1 : ev ≠ .speechEnd) (h2 : ev ≠ .activateVoiceControl) :
    QuietC (stepRun s ev).1.comp ∧
    Eff.startRec ∉ (stepRun s ev).2.map TEff.eff := by
  obtain ⟨ha, hb, hc⟩ := hq
  cases ev with
  | recResult t => simp [stepRun, ha, applyNE, QuietC, hb, hc]
  | recStarted => simp [stepRun, ha, applyNE, QuietC, hb, hc]
  | recEnded => simp [stepRun, ha, applyNE, QuietC, hb, hc]
  | recError m => simp [stepRun, ha, applyNE, QuietC, hb, hc]
  | speechStart =>
      have h := applyNE_stop s.comp.pendingSpeechStartStops
        ⟨{ s.comp with pendingSpeechStartStops := 0 }, s.speaking⟩
      refine ⟨?_, ?_⟩
      · rw [stepRun, h.1]
        exact ⟨ha, hb, hc⟩
      · rw [stepRun, h.2]
        intro hmem
        exact absurd (List.eq_of_mem_replicate hmem) (by simp)
  | speechEnd => exact absurd rfl h1
  | voiceList vs =>
      cases hi : s.comp.globalHandlersOn <;>
        simp [stepRun, hi, pureE, QuietC, ha, hb, hc]
  | pathwayDeleted b =>
      cases hi : s.comp.globalHandlersOn <;>
        simp [stepRun, hi, emitE, pureE, QuietC, ha, hb, hc]
  | creatorClosed r => simp [stepRun, hc, pureE, QuietC, ha, hb]
  | helpClosed => simp [stepRun, hb, pureE, QuietC, ha, hc]
  | activateVoiceControl => exact absurd rfl h2
  | deactivateVoiceControl => simp [stepRun, emitE, QuietC, ha, hb, hc]

theorem quiet_run_noStart (evs : List Ev) (s : MS) (hq : QuietC s.comp)
    (hevs : ∀ ev ∈ evs, ev ≠ Ev.speechEnd ∧ ev ≠ Ev.activateVoiceControl) :
    Eff.startRec ∉ (runMS s evs).2.map TEff.eff := by
  induction evs generalizing s with
  | nil => simp [runMS]
  | cons ev evs ih =>
      have h := quiet_step_noStart s ev hq (hevs ev (List.mem_cons_self ev evs)).1
        (hevs ev (List.mem_cons_self ev evs)).2
      intro hmem
      simp only [runMS, seqE, List.map_append, List.mem_append] at hmem
      rcases hmem with hL | hR
      · exact h.2 hL
      · exact ih (stepRun s ev).1 h.1
          (fun e he => hevs e (List.mem_cons_of_mem ev he)) hR

theorem quiet0_step_noStart (s : MS) (ev : Ev) (hq : Quiet0C s.comp)
    (h2 : ev ≠ .activateVoiceControl) :
    Quiet0C (stepRun s ev).1.comp ∧
    Eff.startRec ∉ (stepRun s ev).2.map TEff.eff := by
  obtain ⟨ha, hb, hc, hd⟩ := hq
  cases ev with
  | recResult t => simp [stepRun, ha, applyNE, Quiet0C, hb, hc, hd]
  | recStarted => simp [stepRun, ha, applyNE, Quiet0C, hb, hc, hd]
  | recEnded => simp [stepRun, ha, applyNE, Quiet0C, hb, hc, hd]
  | recError m => simp [stepRun, ha, applyNE, Quiet0C, hb, hc, hd]
  | speechStart =>
      have h := applyNE_stop s.comp.pendingSpeechStartStops
        ⟨{ s.comp with pendingSpeechStartStops := 0 }, s.speaking⟩
      refine ⟨?_, ?_⟩
      · rw [stepRun, h.1]
        exact ⟨ha, hb, hc, hd⟩
      · rw [stepRun, h.2]
        intro hmem
        exact absurd (List.eq_of_mem_replicate hmem) (by simp)
  | speechEnd => simp [stepRun, hd, applyNE, Quiet0C, ha, hb, hc]
  | voiceList vs =>
      cases hi : s.comp.globalHandlersOn <;>
        simp [stepRun, hi, pureE, Quiet0C, ha, hb, hc, hd]
  | pathwayDeleted b =>
      cases hi : s.comp.globalHandlersOn <;>
        simp [stepRun, hi, emitE, pureE, Quiet0C, ha, hb, hc, hd]
  | creatorClosed r => simp [stepRun, hc, pureE, Quiet0C, ha, hb, hd]
  | helpClosed => simp [stepRun, hb, pureE, Quiet0C, ha, hc, hd]
  | activateVoiceControl => exact absurd rfl h2
  | deactivateVoiceControl => simp [stepRun, emitE, Quiet0C, ha, hb, hc, hd]

theorem quiet0_run_noStart (evs : List Ev) (s : MS) (hq : Quiet0C s.comp)
    (hevs : ∀ ev ∈ evs, ev ≠ Ev.activateVoiceControl) :
    Eff.startRec ∉ (runMS s evs).2.map TEff.eff := by
  induction evs generalizing s with
  | nil => simp [runMS]
  | cons ev evs ih =>
      have h := quiet0_step_noStart s ev hq (hevs ev (List.mem_cons_self ev evs))
      intro hmem
      simp only [runMS, seqE, List.map_append, List.mem_append] at hmem
      rcases hmem with hL | hR
      · exact h.2 hL
      · exact ih (stepRun s ev).1 h.1
          (fun e he => hevs e (List.mem_cons_of_mem ev he)) hR

/-- C5: when the creator dialog closes with a well-formed appointment, the
handler emits the new-pathway-event notification and speaks the success
utterance, restarts only once speech-end fires — no recognition start can
happen earlier, whatever non-speech-end, non-user events occur — and a
close with no result restarts immediately with no utterance. -/
theorem C5_creation_roundtrip (s : MS) (o : DialogObj)
    (hopen : s.comp.creatorDialogOpen = true)
    (hsubs : s.comp.recSubs = [])
    (hhelp : s.comp.helpDialogOpen = false)
    (hpend : s.comp.pendingSpeechEndRestarts = 0)
    (hvalid : isPathwayEvent o = true) :
    (stepRun s (.creatorClosed (some o))).2.map TEff.eff =
      [.emitCreated o, .speak (some successUtterance)] ∧
    (∀ evs, (∀ ev ∈ evs, ev ≠ Ev.speechEnd ∧ ev ≠ Ev.activateVoiceControl) →
      Eff.startRec ∉
        (runMS (stepRun s (.creatorClosed (some o))).1 evs).2.map TEff.eff) ∧
    (stepRun (stepRun s (.creatorClosed (some o))).1 .speechEnd).2.map TEff.eff =
      [.stopRec, .initRec, .startRec] ∧
    (stepRun s (.creatorClosed none)).2.map TEff.eff =
      [.stopRec, .initRec, .startRec] := by
  have hpost1 : (stepRun s (.creatorClosed (some o))).1.comp.recSubs =
      s.comp.recSubs := by
    simp [stepRun, hopen, hvalid, seqE, emitE]
  have hpost2 : (stepRun s (.creatorClosed (some o))).1.comp.helpDialogOpen =
      s.comp.helpDialogOpen := by
    simp [stepRun, hopen, hvalid, seqE, emitE]
  have hpost3 : (stepRun s (.creatorClosed (some o))).1.comp.creatorDialogOpen =
      false := by
    simp [stepRun, hopen, hvalid, seqE, emitE]
  have hpost4 : (stepRun s (.creatorClosed (some o))).1.comp.pendingSpeechEndRestarts =
      s.comp.pendingSpeechEndRestarts + 1 := by
    simp [stepRun, hopen, hvalid, seqE, emitE]
  refine ⟨?_, ?_, ?_, ?_⟩
  · simp [stepRun, hopen, hvalid, seqE, emitE]
  · intro evs hevs
    exact quiet_run_noStart evs _ ⟨hpost1.trans hsubs, hpost2.trans hhelp, hpost3⟩ hevs
  · have hp1 : (stepRun s (.creatorClosed (some o))).1.comp.pendingSpeechEndRestarts
        = 1 := by rw [hpost4, hpend]
    generalize hg : (stepRun s (.creatorClosed (some o))).1 = q at hp1 ⊢
    simp [stepRun, hp1, applyNE, seqE, restartMS, emitE, pureE, unsubscribeAll,
      setupBehaviour]
  · simp [stepRun, hopen, restartMS, seqE, emitE, pureE, unsubscribeAll,
      setupBehaviour]

/-- Witness for C5 at the reachable creator-dialog state and the sample
appointment object. -/
theorem C5_creation_roundtrip_witness :
    (stepRun canonCreatorOpen (.creatorClosed (some sampleEvent))).2.map TEff.eff =
      [.emitCreated sampleEvent, .speak (some successUtterance)] ∧
    Eff.startRec ∉
      (runMS (stepRun canonCreatorOpen (.creatorClosed (some sampleEvent))).1
        [Ev.pathwayDeleted true, Ev.speechStart]).2.map TEff.eff ∧
    (stepRun (stepRun canonCreatorOpen (.creatorClosed (some sampleEvent))).1
        .speechEnd).2.map TEff.eff = [.stopRec, .initRec, .startRec] ∧
    (stepRun canonCreatorOpen (.creatorClosed none)).2.map TEff.eff =
      [.stopRec, .initRec, .startRec] := by
  have h := C5_creation_roundtrip canonCreatorOpen sampleEvent (by decide) (by decide)
    (by decide) (by decide) (by decide)
  exact ⟨h.1, h.2.1 [Ev.pathwayDeleted true, Ev.speechStart] (by decide),
    h.2.2.1, h.2.2.2⟩

/-- C7: with the recognition capability unavailable, initialization performs
exactly one user-facing notice and no recognition start, installs no
recognition handler set, and no later event sequence free of the microphone
button ever starts recognition. -/
theorem C7_unavailable_init (evs : List Ev)
    (hevs : ∀ ev ∈ evs, ev ≠ Ev.activateVoiceControl) :
    (initComponent false).2.map TEff.eff =
      [.initRec, .display (some browserNotice)] ∧
    (initComponent false).1.comp.recSubs = [] ∧
    Eff.startRec ∉ (runMS (initComponent false).1 evs).2.map TEff.eff := by
  refine ⟨by decide, by decide, ?_⟩
  refine quiet0_run_noStart evs _ ?_ hevs
  exact ⟨by decide, by decide, by decide, by decide⟩

/-- Witness for C7 at a concrete event sequence without the microphone
button. -/
theorem C7_unavailable_init_witness :
    (initComponent false).2.map TEff.eff =
      [.initRec, .display (some browserNotice)] ∧
    (initComponent false).1.comp.recSubs = [] ∧
    Eff.startRec ∉ (runMS (initComponent false).1
      [Ev.speechEnd, Ev.pathwayDeleted false, Ev.recResult "hilfe"]).2.map TEff.eff :=
  C7_unavailable_init [Ev.speechEnd, Ev.pathwayDeleted false, Ev.recResult "hilfe"]
    (by decide)

end PathwayControl
